import Mathlib

/-!
Verification of the R7 delay-reporting backend (`Backend/models/delay.js`,
`Backend/controllers/delayController.js`).

The JavaScript core is shallowly embedded below.  Conventions of the
embedding:

* JS numbers that hold whole milliseconds / seconds / minutes are `Int`.
* Timestamps (`Date` values, ISO strings) are milliseconds since epoch,
  in UTC (`Int`).  A nullable timestamp is `Option Int`; when present the
  underlying JS value is a `Date`/non-empty ISO string, which is always
  truthy, so `x || null` on such a field is the identity on the option.
* `Math.round x` for `x = a / b` (`b > 0`) is `jsRoundDiv a b`
  (round half towards +infinity, as JS does).
* JS truthiness is modelled per type: for an optional number, `none` and
  `some 0` are falsy; for an optional string, `none` and `some ""` are
  falsy; booleans are themselves.
* `Math.floor (Math.random () * 16)` is modelled as an oracle value of
  type `Fin 16` (the exact set of values the expression can take), and
  similarly for the other random draws; the draws are inputs of the
  embedded functions.
* Upstream I/O (HAFAS calls) is modelled by explicit environment values:
  `Option` for a call that can throw (the code catches and substitutes a
  default), and a per-stop `StopEnv` describing which branch the
  `fetchRealDelayData` loop takes for that stop.
-/

namespace R7

/-- JS `Math.round (a / b)` for integers `a`, `b` with `b > 0`:
round half up, i.e. `⌊a/b + 1/2⌋ = ⌊(2a + b) / (2b)⌋`. -/
def jsRoundDiv (a b : Int) : Int := (2 * a + b).fdiv (2 * b)

example : jsRoundDiv 3 2 = 2 := by decide
example : jsRoundDiv (-3) 2 = -1 := by decide
example : jsRoundDiv 599 60 = 10 := by decide
example : jsRoundDiv (-90) 60 = -1 := by decide

/-- JS truthiness of an optional number (`undefined`/`null`/`0` are falsy). -/
def intTruthy : Option Int → Bool
  | none => false
  | some n => n != 0

/-- JS truthiness of an optional string (`undefined`/`null`/`""` are falsy). -/
def strTruthy : Option String → Bool
  | none => false
  | some s => s != ""

/-- JS `a || b` on optional strings (skips falsy operands). -/
def jsOrStr (a b : Option String) : Option String :=
  if strTruthy a then a else if strTruthy b then b else none

/-- JS `a || d` where `a` is an optional string and `d` a string default. -/
def jsOrStrD (a : Option String) (d : String) : String :=
  if strTruthy a then a.getD "" else d

/-- JS `a || d` where `a` is an optional number and `d` a number default. -/
def jsOrIntD (a : Option Int) (d : Int) : Int :=
  if intTruthy a then a.getD 0 else d

/-- Simple single-character uppercasing as performed by JS
`String.prototype.toUpperCase` on the ASCII and Latin-1 letters
(the only characters appearing in the data this program handles). -/
def upperChar (c : Char) : Char :=
  if 'a' ≤ c ∧ c ≤ 'z' then Char.ofNat (c.toNat - 32)
  else if 'à' ≤ c ∧ c ≤ 'þ' ∧ c ≠ '÷' then Char.ofNat (c.toNat - 32)
  else c

/-- Simple single-character lowercasing as performed by JS
`String.prototype.toLowerCase` on the ASCII and Latin-1 letters. -/
def lowerChar (c : Char) : Char :=
  if 'A' ≤ c ∧ c ≤ 'Z' then Char.ofNat (c.toNat + 32)
  else if 'À' ≤ c ∧ c ≤ 'Þ' ∧ c ≠ '×' then Char.ofNat (c.toNat + 32)
  else c

/-- JS `s.toUpperCase()` (on the character repertoire used here). -/
def jsUpper (s : String) : String := ⟨s.data.map upperChar⟩

/-- JS `s.toLowerCase()` (on the character repertoire used here). -/
def jsLower (s : String) : String := ⟨s.data.map lowerChar⟩

/-- Does `hay` start with `needle`? -/
def leadsWith : List Char → List Char → Bool
  | [], _ => true
  | _ :: _, [] => false
  | a :: as, b :: bs => a == b && leadsWith as bs

/-- JS `hay.includes(needle)`: substring containment. -/
def hasSub (hay needle : List Char) : Bool :=
  match hay with
  | [] => leadsWith needle []
  | _ :: t => leadsWith needle hay || hasSub t needle

/-- JS `hay.includes(needle)` on strings. -/
def strHasSub (hay needle : String) : Bool := hasSub hay.data needle.data

example : strHasSub "RE7" "R7" = false := by decide
example : strHasSub "R71" "R7" = true := by decide
example : strHasSub "R7" "R7" = true := by decide

/-! ## Static data model (`delay.js` lines 27–35) -/

/-- A static R7 stop record. -/
structure Stop where
  id : String
  name : String
  searchName : String
  hafasId : Option String
  order : Nat
  deriving Repr, DecidableEq

/-- The fixed stop list `R7_STOPS` of `delay.js`. -/
def R7_STOPS : List Stop :=
  [ ⟨"1", "Zweibrücken Hauptbahnhof", "Zweibrücken Hbf", some "8000472", 1⟩,
    ⟨"2", "Zweibrücken Rosengarten", "Zweibrücken Rosengarten", none, 2⟩,
    ⟨"3", "Einöd", "Einöd", none, 3⟩,
    ⟨"4", "Ingweiler", "Ingweiler", none, 4⟩,
    ⟨"5", "Bierbach", "Bierbach", none, 5⟩,
    ⟨"6", "Beeden", "Beeden", none, 6⟩,
    ⟨"7", "Homburg (Saar) Hauptbahnhof", "Homburg Hbf", some "8000176", 7⟩ ]

/-- An upstream HAFAS location result, as consumed by this program
(`findStation` / `searchStations`). -/
structure Station where
  id : String
  name : String
  type : String
  location : Option (Int × Int)
  deriving Repr, DecidableEq

/-- An upstream HAFAS departure object, restricted to the fields
`calculateDelay` and the line filter read.  `lineName`/`lineProduct`
model `dep.line?.name` / `dep.line?.product`. -/
structure Departure where
  delay : Option Int
  plannedWhen : Option Int
  when : Option Int
  cancelled : Bool
  platform : Option String
  plannedPlatform : Option String
  direction : Option String
  lineName : Option String
  lineProduct : Option String
  remarks : Option (List String)
  deriving Repr, DecidableEq

/-- The record `calculateDelay` returns (one normalized departure). -/
structure DelayInfo where
  scheduledDeparture : Option Int
  expectedDeparture : Option Int
  delayMinutes : Int
  status : String
  cancelled : Bool
  platform : Option String
  direction : Option String
  lineName : String
  remarks : List String
  deriving Repr, DecidableEq

/-! ## Delay classification and calculation (`delay.js` lines 126–160) -/

/-- `getDelayStatus` (`delay.js` 155–160). -/
def getDelayStatus (delayMinutes : Int) : String :=
  if delayMinutes ≤ 0 then "on-time"
  else if delayMinutes ≤ 5 then "slight-delay"
  else if delayMinutes ≤ 10 then "delayed"
  else "heavily-delayed"

/-- `calculateDelay` (`delay.js` 126–148).  `departure.delay` is tested
with JS truthiness (`if (departure.delay)`), so an explicit `0` falls
through to the timestamp branch; `new Date(x) - new Date(y)` is the
millisecond difference. -/
def calculateDelay (departure : Departure) : DelayInfo :=
  let scheduledTime : Option Int := departure.plannedWhen
  let actualTime : Option Int := departure.when
  let delayMinutes : Int :=
    if intTruthy departure.delay then
      jsRoundDiv (departure.delay.getD 0) 60
    else
      match scheduledTime, actualTime with
      | some s, some a => jsRoundDiv (a - s) (1000 * 60)
      | _, _ => 0
  { scheduledDeparture := scheduledTime
    expectedDeparture :=
      match actualTime with
      | some a => some a
      | none => scheduledTime
    delayMinutes := max 0 delayMinutes
    status := getDelayStatus delayMinutes
    cancelled := departure.cancelled
    platform := jsOrStr departure.platform departure.plannedPlatform
    direction := departure.direction
    lineName := jsOrStrD departure.lineName "R7"
    remarks := departure.remarks.getD [] }

/-! ## Departure fetcher and line filter (`delay.js` lines 99–119) -/

/-- The R7 line filter applied inside `getDeparturesForStation`
(`delay.js` 109–112): uppercase the label `dep.line?.name ||
dep.line?.product || ''`, then keep labels containing `R7` or `R 7`
or equal to `RE7` / `RB7`. -/
def isR7Line (dep : Departure) : Bool :=
  let lineName := jsUpper (jsOrStrD (jsOrStr dep.lineName dep.lineProduct) "")
  strHasSub lineName "R7" || strHasSub lineName "R 7" ||
    lineName == "RE7" || lineName == "RB7"

/-- `getDeparturesForStation` (`delay.js` 99–119).  `apiUp` is the cached
availability-probe result; `upstream` is the departures call, `none` when
it throws (the `catch` branch returns `[]`). -/
def getDeparturesForStation (apiUp : Bool) (upstream : Option (List Departure)) :
    List Departure :=
  if !apiUp then []
  else
    match upstream with
    | none => []
    | some departures => departures.filter isR7Line

/-! ## Per-stop snapshots (`delay.js` lines 166–322) -/

/-- The per-stop result record (`StopDelaySnapshot`).  Fields that a given
branch of the source does not set (e.g. the error branch sets only
`stopId`/`stopName`/`stopOrder`/`error`/`lastUpdated`) are modelled by
their JS-falsy defaults (`none`, `""`, `false`, `0`, `[]`). -/
structure Snapshot where
  stopId : String
  stopName : String
  stopOrder : Nat
  hafasId : Option String
  hafasName : Option String
  location : Option (Int × Int)
  scheduledDeparture : Option Int
  expectedArrival : Option Int
  delayMinutes : Int
  status : String
  cancelled : Bool
  platform : Option String
  direction : Option String
  lineName : String
  remarks : List String
  upcomingDepartures : List DelayInfo
  lastUpdated : Int
  isSimulated : Bool
  error : Option String
  deriving Repr, DecidableEq, Inhabited

/-- One stop's worth of random draws for the simulated generator:
`baseDelay` models `Math.floor(Math.random() * 16)` (a value in `0..15`),
`cancelled` models `Math.random() < 0.05`, and `platformDraw` models
`Math.floor(Math.random() * 3)` (a value in `0..2`). -/
structure SimDraw where
  baseDelay : Fin 16
  cancelled : Bool
  platformDraw : Fin 3
  deriving Repr, DecidableEq

/-- `generateSimulatedData` (`delay.js` 166–217), with the random draws
supplied per stop order.  `Date`s are UTC milliseconds since epoch:
`getMinutes()` is `(now.emod 3600000).fdiv 60000`, and setting the minute
field to `nextHalfHour % 60` (plus the hour carry when it is 60) lands on
`hourStart + nextHalfHour` minutes. -/
def generateSimulatedData (draw : Nat → SimDraw) (now : Int) : List Snapshot :=
  R7_STOPS.map fun stop =>
    let d := draw stop.order
    let baseDelay : Int := (d.baseDelay : Nat)
    let delay : Int := if baseDelay < 5 then 0 else baseDelay
    let minutes : Int := (now.emod 3600000).fdiv 60000
    let nextHalfHour : Int := if minutes < 30 then 30 else 60
    let nextDeparture : Int := now - now.emod 3600000 + nextHalfHour * 60000
    let expectedArrival : Int := nextDeparture + delay * 60000
    let cancelled := d.cancelled
    { stopId := stop.id
      stopName := stop.name
      stopOrder := stop.order
      hafasId := stop.hafasId
      hafasName := some stop.name
      location := none
      scheduledDeparture := some nextDeparture
      expectedArrival := some expectedArrival
      delayMinutes := if cancelled then 0 else delay
      status := if cancelled then "cancelled" else getDelayStatus delay
      cancelled := cancelled
      platform :=
        if stop.order = 1 ∨ stop.order = 7 then
          some (toString ((d.platformDraw : Nat) + 1))
        else none
      direction := some (if stop.order ≤ 3 then "Homburg (Saar) Hbf" else "Zweibrücken Hbf")
      lineName := "R7"
      remarks := []
      upcomingDepartures := []
      lastUpdated := now
      isSimulated := true
      error := none }

/-- The snapshot pushed by the two error paths of the `fetchRealDelayData`
loop (`delay.js` 268–275 and 310–317). -/
def errorSnapshot (stop : Stop) (msg : String) (now : Int) : Snapshot :=
  { stopId := stop.id
    stopName := stop.name
    stopOrder := stop.order
    hafasId := none
    hafasName := none
    location := none
    scheduledDeparture := none
    expectedArrival := none
    delayMinutes := 0
    status := ""
    cancelled := false
    platform := none
    direction := none
    lineName := ""
    remarks := []
    upcomingDepartures := []
    lastUpdated := now
    isSimulated := false
    error := some msg }

/-- The snapshot pushed by the two successful paths of the
`fetchRealDelayData` loop (`delay.js` 248–266 and 289–307), sharing the
fields both literals compute from `nextDeparture = processedDepartures[0]`.
An ISO-string timestamp is truthy whenever present, so
`nextDeparture?.scheduledDeparture || null` is the plain option. -/
def realSnapshot (stop : Stop) (hafasId : String) (hafasName : String)
    (location : Option (Int × Int)) (processed : List DelayInfo) (now : Int) :
    Snapshot :=
  let nextDeparture := processed.head?
  { stopId := stop.id
    stopName := stop.name
    stopOrder := stop.order
    hafasId := some hafasId
    hafasName := some hafasName
    location := location
    scheduledDeparture := nextDeparture.bind (·.scheduledDeparture)
    expectedArrival := nextDeparture.bind (·.expectedDeparture)
    delayMinutes := jsOrIntD (nextDeparture.map (·.delayMinutes)) 0
    status := jsOrStrD (nextDeparture.map (·.status)) "unknown"
    cancelled := (nextDeparture.map (·.cancelled)).getD false
    platform := nextDeparture.bind (·.platform)
    direction := nextDeparture.bind (·.direction)
    lineName := jsOrStrD (nextDeparture.map (·.lineName)) "R7"
    remarks := (nextDeparture.map (·.remarks)).getD []
    upcomingDepartures := processed.take 5
    lastUpdated := now
    isSimulated := false
    error := none }

/-- Which branch the real-data loop takes for one stop:
`stationFound station upstream` — `findStation` returned `station` and the
departures call for `station.id` yielded `upstream` (`none` = threw);
`stationMissing upstream` — `findStation` returned `null` (and `upstream`
is the departures call against the stop's static `hafasId`, if any);
`errorThrown msg` — the loop body threw and the `catch` ran. -/
inductive StopEnv where
  | stationFound (station : Station) (upstream : Option (List Departure))
  | stationMissing (upstream : Option (List Departure))
  | errorThrown (msg : String)
  deriving Repr

/-- The body of the `for (const stop of R7_STOPS)` loop of
`fetchRealDelayData` (`delay.js` 236–319) for one stop. -/
def processStop (stop : Stop) (env : StopEnv) (now : Int) : Snapshot :=
  match env with
  | .errorThrown msg => errorSnapshot stop msg now
  | .stationFound station upstream =>
      let departures := getDeparturesForStation true upstream
      let processed := departures.map calculateDelay
      realSnapshot stop station.id station.name station.location processed now
  | .stationMissing upstream =>
      match stop.hafasId with
      | some hid =>
          let departures := getDeparturesForStation true upstream
          let processed := departures.map calculateDelay
          realSnapshot stop hid stop.name none processed now
      | none => errorSnapshot stop "Station not found in HAFAS" now

/-- `fetchRealDelayData` (`delay.js` 224–322): simulated data when the
availability probe fails, otherwise one `processStop` result per static
stop, in stop-list order. -/
def fetchRealDelayData (apiUp : Bool) (draw : Nat → SimDraw) (env : Nat → StopEnv)
    (now : Int) : List Snapshot :=
  if !apiUp then generateSimulatedData draw now
  else R7_STOPS.map fun stop => processStop stop (env stop.order) now

/-! ## Lookups and search (`delay.js` lines 328–376) -/

/-- One record of `getAllStops` (`delay.js` 328–334). -/
structure StopInfo where
  id : String
  name : String
  order : Nat
  deriving Repr, DecidableEq

/-- `getAllStops` (`delay.js` 328–334). -/
def getAllStops : List StopInfo :=
  R7_STOPS.map fun stop => ⟨stop.id, stop.name, stop.order⟩

/-- `getDelayByStopId` (`delay.js` 341–344): linear search of the full
snapshot list; `find(...) || null` is an `Option`. -/
def getDelayByStopId (apiUp : Bool) (draw : Nat → SimDraw) (env : Nat → StopEnv)
    (now : Int) (stopId : String) : Option Snapshot :=
  let allDelays := fetchRealDelayData apiUp draw env now
  allDelays.find? fun d => d.stopId == stopId

/-- One search result of `searchStations`. -/
structure SearchResult where
  id : String
  name : String
  type : String
  location : Option (Int × Int)
  deriving Repr, DecidableEq

/-- `searchStations` (`delay.js` 351–376).  `upstream` is the result of
`hafasClient.locations` (`none` = threw; the `catch` returns `[]`). -/
def searchStations (apiUp : Bool) (upstream : Option (List Station))
    (query : String) : List SearchResult :=
  if !apiUp then
    (R7_STOPS.filter fun stop =>
        strHasSub (jsLower stop.name) (jsLower query)).map
      fun stop => ⟨jsOrStrD stop.hafasId stop.id, stop.name, "stop", none⟩
  else
    match upstream with
    | none => []
    | some results =>
        (results.filter fun r => r.type == "stop").map
          fun station => ⟨station.id, station.name, station.type, station.location⟩

/-! ## Controller layer (`delayController.js`) -/

/-- The filter `delays.filter(d => !d.error && d.scheduledDeparture)`
shared by `getAllDelays` and `getRouteSummary`
(`delayController.js` 17 and 108).  A present `scheduledDeparture` is a
non-empty ISO string, hence truthy exactly when present. -/
def validDelays (delays : List Snapshot) : List Snapshot :=
  delays.filter fun d => !strTruthy d.error && d.scheduledDeparture.isSome

/-- The `summary` object of `getRouteSummary`. -/
structure RouteSummary where
  totalStops : Nat
  stopsWithData : Nat
  averageDelayMinutes : Int
  maxDelayMinutes : Int
  onTimePercentage : Int
  stopsOnTime : Nat
  stopsDelayed : Nat
  cancelledServices : Nat
  deriving Repr, DecidableEq

/-- The statistics computation of `getRouteSummary`
(`delayController.js` 104–133), as a function of the fetched snapshot
list.  `Math.max(...)` over the non-empty list is a left fold of `max`. -/
def getRouteSummary (delays : List Snapshot) : RouteSummary :=
  let valid := validDelays delays
  let totalDelays : Int := valid.foldl (fun sum d => sum + d.delayMinutes) 0
  let averageDelay : Int :=
    if valid.length > 0 then jsRoundDiv totalDelays valid.length else 0
  let maxDelay : Int :=
    if valid.length > 0 then
      match valid.map (·.delayMinutes) with
      | [] => 0
      | h :: t => t.foldl max h
    else 0
  let onTimeCount := (valid.filter fun d => d.delayMinutes == 0).length
  let cancelledCount := (delays.filter fun d => d.cancelled).length
  { totalStops := delays.length
    stopsWithData := valid.length
    averageDelayMinutes := averageDelay
    maxDelayMinutes := maxDelay
    onTimePercentage :=
      if valid.length > 0 then
        jsRoundDiv ((onTimeCount : Int) * 100) (valid.length : Int)
      else 0
    stopsOnTime := onTimeCount
    stopsDelayed := valid.length - onTimeCount
    cancelledServices := cancelledCount }

/-- The HTTP response of `getDelayByStop`, restricted to status code and
the fields the spec names. -/
structure StopResponse where
  statusCode : Nat
  success : Bool
  error : Option String
  data : Option Snapshot
  deriving Repr, DecidableEq

/-- `getDelayByStop` (`delayController.js` 70–99): 404 with
`{success:false, error:"Stop not found"}` when the lookup yields no
snapshot, 200 with the snapshot otherwise. -/
def getDelayByStop (apiUp : Bool) (draw : Nat → SimDraw) (env : Nat → StopEnv)
    (now : Int) (stopId : String) : StopResponse :=
  match getDelayByStopId apiUp draw env now stopId with
  | none => ⟨404, false, some "Stop not found", none⟩
  | some d => ⟨200, true, none, some d⟩

/-! ## Specification-side definitions

These follow the wording of the specification (not the source) and are
compared against the source-derived definitions above. -/

/-- Severity rank of a delay status, for stating monotonicity of the
classification. -/
def statusSeverity : String → Nat
  | "on-time" => 0
  | "slight-delay" => 1
  | "delayed" => 2
  | _ => 3

/-- The delay-minutes computation as the claim words it: the explicit
delay-in-seconds field is used whenever *present* (`round(delay / 60)`),
the timestamp difference only when it is absent, and the result is
clamped at zero. -/
def claimDelayMinutes (departure : Departure) : Int :=
  let raw : Int :=
    match departure.delay with
    | some d => jsRoundDiv d 60
    | none =>
        match departure.plannedWhen, departure.when with
        | some s, some a => jsRoundDiv (a - s) (1000 * 60)
        | _, _ => 0
  max 0 raw

/-- The line filter as the claim words it: the uppercased label is exactly
the code `R7`, the spaced code `R 7`, or one of the aliases `RE7`, `RB7`. -/
def claimLineMatch (dep : Departure) : Bool :=
  let lineName := jsUpper (jsOrStrD (jsOrStr dep.lineName dep.lineProduct) "")
  lineName == "R7" || lineName == "R 7" || lineName == "RE7" || lineName == "RB7"

/-- The on-time count as the claim words it: statistics over exactly the
snapshots that carry no error. -/
def claimOnTimeCount (delays : List Snapshot) : Nat :=
  ((delays.filter fun d => !strTruthy d.error).filter
    fun d => d.delayMinutes == 0).length

/-! ## Theorems -/

/-- C1: `getDelayStatus` is a total pure function of the integer minute
count: `m ≤ 0` maps to "on-time", `1..5` to "slight-delay", `6..10` to
"delayed" and `m > 10` to "heavily-delayed"; the result is always one of
these four statuses, and their severity is monotone non-decreasing in the
minute count. -/
theorem getDelayStatus_classification (m n : Int) (hmn : m ≤ n) :
    (m ≤ 0 → getDelayStatus m = "on-time") ∧
    (1 ≤ m ∧ m ≤ 5 → getDelayStatus m = "slight-delay") ∧
    (6 ≤ m ∧ m ≤ 10 → getDelayStatus m = "delayed") ∧
    (10 < m → getDelayStatus m = "heavily-delayed") ∧
    (getDelayStatus m = "on-time" ∨ getDelayStatus m = "slight-delay" ∨
      getDelayStatus m = "delayed" ∨ getDelayStatus m = "heavily-delayed") ∧
    statusSeverity (getDelayStatus m) ≤ statusSeverity (getDelayStatus n) := by
  have sev : ∀ k : Int, statusSeverity (getDelayStatus k) =
      if k ≤ 0 then 0 else if k ≤ 5 then 1 else if k ≤ 10 then 2 else 3 := by
    intro k
    unfold getDelayStatus statusSeverity
    split_ifs <;> rfl
  refine ⟨?_, ?_, ?_, ?_, ?_, ?_⟩
  · intro h; unfold getDelayStatus; rw [if_pos h]
  · intro h; unfold getDelayStatus; split_ifs with h1 h2 <;> first | rfl | omega
  · intro h; unfold getDelayStatus; split_ifs with h1 h2 h3 <;> first | rfl | omega
  · intro h; unfold getDelayStatus; split_ifs with h1 h2 h3 <;> first | rfl | omega
  · unfold getDelayStatus; split_ifs <;> simp
  · rw [sev m, sev n]; split_ifs <;> omega

/-- C1 witness at `m = 3`, `n = 12`. -/
theorem getDelayStatus_classification_witness :
    ((1:Int) ≤ 3 ∧ (3:Int) ≤ 5 → getDelayStatus 3 = "slight-delay") ∧
    statusSeverity (getDelayStatus 3) ≤ statusSeverity (getDelayStatus 12) :=
  ⟨(getDelayStatus_classification 3 12 (by decide)).2.1,
   (getDelayStatus_classification 3 12 (by decide)).2.2.2.2.2⟩

/-- C9: the `status` field `calculateDelay` returns agrees with the
classification of its own (clamped) `delayMinutes` field, because
`getDelayStatus` is invariant under clamping at zero (both sides send any
non-positive value to "on-time"). -/
theorem calculateDelay_status_consistent (departure : Departure) (m : Int) :
    (calculateDelay departure).status =
      getDelayStatus (calculateDelay departure).delayMinutes ∧
    getDelayStatus (max 0 m) = getDelayStatus m := by
  have clamp : ∀ k : Int, getDelayStatus (max 0 k) = getDelayStatus k := by
    intro k
    rcases le_or_lt k 0 with hk | hk
    · have h0 : max 0 k = 0 := by omega
      rw [h0]
      unfold getDelayStatus
      rw [if_pos (le_refl (0 : Int)), if_pos hk]
    · have h0 : max 0 k = k := by omega
      rw [h0]
  constructor
  · simp only [calculateDelay]
    exact (clamp _).symm
  · exact clamp m

/-- A departure carrying an explicit `delay` field of `0` seconds together
with timestamps five minutes apart. -/
def zeroDelayDeparture : Departure :=
  ⟨some 0, some 60000, some 360000, false, none, none, none, some "R7", none, none⟩

/-- C2 counterexample: on `zeroDelayDeparture` the claim's formula yields
0 minutes (the delay field is present), but the code tests the field with
JS truthiness, skips the falsy `0` and computes 5 minutes from the
timestamps. -/
theorem calculateDelay_present_vs_truthy_cex :
    claimDelayMinutes zeroDelayDeparture = 0 ∧
    (calculateDelay zeroDelayDeparture).delayMinutes = 5 := by decide

/-- C2 amended: the explicit delay-in-seconds field is used when *truthy*
(present and non-zero); a zero or absent field falls back to the rounded
timestamp difference when both timestamps are present and to 0 otherwise;
in every case the result is clamped to be ≥ 0. -/
theorem calculateDelay_delayMinutes_spec (departure : Departure) :
    (∀ d : Int, departure.delay = some d → d ≠ 0 →
      (calculateDelay departure).delayMinutes = max 0 (jsRoundDiv d 60)) ∧
    (departure.delay = none ∨ departure.delay = some 0 →
      (∀ s a : Int, departure.plannedWhen = some s → departure.when = some a →
        (calculateDelay departure).delayMinutes =
          max 0 (jsRoundDiv (a - s) (1000 * 60))) ∧
      (departure.plannedWhen = none ∨ departure.when = none →
        (calculateDelay departure).delayMinutes = 0)) ∧
    0 ≤ (calculateDelay departure).delayMinutes := by
  have hfalse : departure.delay = none ∨ departure.delay = some 0 →
      intTruthy departure.delay = false := by
    rintro (h | h) <;> simp [intTruthy, h]
  refine ⟨?_, fun h0 => ⟨?_, ?_⟩, ?_⟩
  · intro d hd hne
    simp [calculateDelay, intTruthy, hd, hne]
  · intro s a hs ha
    simp [calculateDelay, hfalse h0, hs, ha]
  · rintro (h | h) <;> simp [calculateDelay, hfalse h0, h]
  · simp [calculateDelay]

/-- A departure whose line label is `R71`. -/
def r71Departure : Departure :=
  ⟨none, none, none, false, none, none, none, some "R71", none, none⟩

/-- C7 counterexample: the label `R71` is none of the four stated textual
variants, yet the code's substring test `includes('R7')` keeps the
departure. -/
theorem lineFilter_substring_cex :
    claimLineMatch r71Departure = false ∧
    getDeparturesForStation true (some [r71Departure]) = [r71Departure] := by
  decide

/-- C7 amended: the fetcher keeps exactly the departures whose uppercased
line label *contains* `R7` or `R 7` as a substring or equals `RE7` or
`RB7`; with the API unavailable or on upstream failure it returns the
empty list (totality of the embedded function: no exception). -/
theorem getDeparturesForStation_filter (apiUp : Bool)
    (upstream : Option (List Departure)) (dep : Departure) :
    getDeparturesForStation apiUp none = [] ∧
    getDeparturesForStation false upstream = [] ∧
    (dep ∈ getDeparturesForStation apiUp upstream ↔
      apiUp = true ∧ ∃ departures, upstream = some departures ∧
        dep ∈ departures ∧
        (strHasSub (jsUpper (jsOrStrD (jsOrStr dep.lineName dep.lineProduct) "")) "R7" = true ∨
         strHasSub (jsUpper (jsOrStrD (jsOrStr dep.lineName dep.lineProduct) "")) "R 7" = true ∨
         jsUpper (jsOrStrD (jsOrStr dep.lineName dep.lineProduct) "") = "RE7" ∨
         jsUpper (jsOrStrD (jsOrStr dep.lineName dep.lineProduct) "") = "RB7")) := by
  refine ⟨by cases apiUp <;> rfl, by cases upstream <;> rfl, ?_⟩
  cases apiUp <;> cases upstream <;>
    simp [getDeparturesForStation, isR7Line, List.mem_filter, or_assoc]

/-- C10: with the upstream API unavailable, `searchStations` neither fails
(the embedded function is total) nor returns an unconditional empty list:
its results are exactly the static R7 stops whose name contains the query
as a case-insensitive substring, each mapped to a result of type "stop"
with null location. -/
theorem searchStations_offline (upstream : Option (List Station))
    (query : String) (r : SearchResult) :
    r ∈ searchStations false upstream query ↔
      ∃ stop, stop ∈ R7_STOPS ∧
        strHasSub (jsLower stop.name) (jsLower query) = true ∧
        r = ⟨jsOrStrD stop.hafasId stop.id, stop.name, "stop", none⟩ := by
  simp only [searchStations, Bool.not_false, if_pos, List.mem_map, List.mem_filter]
  constructor
  · rintro ⟨stop, ⟨hmem, hsub⟩, rfl⟩
    exact ⟨stop, hmem, hsub, rfl⟩
  · rintro ⟨stop, hmem, hsub, rfl⟩
    exact ⟨stop, ⟨hmem, hsub⟩, rfl⟩

theorem processStop_stopId (stop : Stop) (env : StopEnv) (now : Int) :
    (processStop stop env now).stopId = stop.id := by
  cases env with
  | errorThrown msg => rfl
  | stationFound station upstream => rfl
  | stationMissing upstream => cases h : stop.hafasId <;> simp [processStop, h, realSnapshot, errorSnapshot]

theorem processStop_stopOrder (stop : Stop) (env : StopEnv) (now : Int) :
    (processStop stop env now).stopOrder = stop.order := by
  cases env with
  | errorThrown msg => rfl
  | stationFound station upstream => rfl
  | stationMissing upstream => cases h : stop.hafasId <;> simp [processStop, h, realSnapshot, errorSnapshot]

theorem fetchRealDelayData_stopIds (apiUp : Bool) (draw : Nat → SimDraw)
    (env : Nat → StopEnv) (now : Int) :
    (fetchRealDelayData apiUp draw env now).map (·.stopId) =
      R7_STOPS.map (·.id) := by
  cases apiUp with
  | false => rfl
  | true => simp [fetchRealDelayData, R7_STOPS, processStop_stopId]

theorem fetchRealDelayData_stopOrders (apiUp : Bool) (draw : Nat → SimDraw)
    (env : Nat → StopEnv) (now : Int) :
    (fetchRealDelayData apiUp draw env now).map (·.stopOrder) =
      [1, 2, 3, 4, 5, 6, 7] := by
  cases apiUp with
  | false => rfl
  | true => simp [fetchRealDelayData, R7_STOPS, processStop_stopOrder]

/-- C3: in both real and simulated mode, and whatever per-stop branches
are taken, the aggregate resolver returns exactly one snapshot per static
stop — length 7 — in ascending stop order, each snapshot's `stopOrder`
matching exactly one static stop. -/
theorem fetchRealDelayData_shape (apiUp : Bool) (draw : Nat → SimDraw)
    (env : Nat → StopEnv) (now : Int) :
    (fetchRealDelayData apiUp draw env now).length = 7 ∧
    R7_STOPS.length = 7 ∧
    (fetchRealDelayData apiUp draw env now).map (·.stopOrder) =
      R7_STOPS.map (·.order) ∧
    List.Sorted (· < ·)
      ((fetchRealDelayData apiUp draw env now).map (·.stopOrder)) ∧
    (∀ s, s ∈ fetchRealDelayData apiUp draw env now →
      (R7_STOPS.filter fun stop => stop.order == s.stopOrder).length = 1) := by
  have horder := fetchRealDelayData_stopOrders apiUp draw env now
  refine ⟨?_, rfl, ?_, ?_, ?_⟩
  · have := congrArg List.length horder
    simpa using this
  · rw [horder]; rfl
  · rw [horder]; decide
  · intro s hs
    have hmem : s.stopOrder ∈ [1, 2, 3, 4, 5, 6, 7] := by
      rw [← horder]
      exact List.mem_map_of_mem _ hs
    have h7 : s.stopOrder = 1 ∨ s.stopOrder = 2 ∨ s.stopOrder = 3 ∨
        s.stopOrder = 4 ∨ s.stopOrder = 5 ∨ s.stopOrder = 6 ∨
        s.stopOrder = 7 := by simpa using hmem
    rcases h7 with h | h | h | h | h | h | h <;> rw [h] <;> decide

/-- C8: an id absent from the static stop list makes the single-stop
lookup return the defined absent result (`none`) and the endpoint answer
404 `{success:false, error:"Stop not found"}`; a present id makes the
lookup return a snapshot of the produced list whose `stopId` matches. -/
theorem getDelayByStop_lookup (apiUp : Bool) (draw : Nat → SimDraw)
    (env : Nat → StopEnv) (now : Int) (stopId : String) :
    ((∀ stop, stop ∈ R7_STOPS → stop.id ≠ stopId) →
      getDelayByStopId apiUp draw env now stopId = none ∧
      getDelayByStop apiUp draw env now stopId =
        ⟨404, false, some "Stop not found", none⟩) ∧
    ((∃ stop, stop ∈ R7_STOPS ∧ stop.id = stopId) →
      ∃ s, getDelayByStopId apiUp draw env now stopId = some s ∧
        s.stopId = stopId ∧ s ∈ fetchRealDelayData apiUp draw env now) := by
  have hids := fetchRealDelayData_stopIds apiUp draw env now
  constructor
  · intro habsent
    have hnone : getDelayByStopId apiUp draw env now stopId = none := by
      apply List.find?_eq_none.mpr
      intro d hd
      have : d.stopId ∈ R7_STOPS.map (·.id) := by
        rw [← hids]
        exact List.mem_map_of_mem _ hd
      obtain ⟨stop, hstop, hid⟩ := List.mem_map.mp this
      simp only [beq_eq_false_iff_ne, ne_eq, beq_iff_eq]
      rw [← hid]
      exact habsent stop hstop
    refine ⟨hnone, ?_⟩
    unfold getDelayByStop
    rw [hnone]
  · rintro ⟨stop, hstop, rfl⟩
    have : stop.id ∈ (fetchRealDelayData apiUp draw env now).map (·.stopId) := by
      rw [hids]
      exact List.mem_map_of_mem _ hstop
    obtain ⟨d, hd, hdid⟩ := List.mem_map.mp this
    have hsome : ∃ s, getDelayByStopId apiUp draw env now stop.id = some s := by
      rw [← Option.isSome_iff_exists]
      apply List.find?_isSome.mpr
      exact ⟨d, hd, by simp [hdid]⟩
    obtain ⟨s, hfind⟩ := hsome
    refine ⟨s, hfind, ?_, List.mem_of_find?_eq_some hfind⟩
    have := List.find?_some hfind
    simpa using this

/-- The draw and environments used by concrete witnesses and
counterexamples. -/
def defaultDraw : Nat → SimDraw := fun _ => ⟨0, false, 0⟩

/-- A per-stop environment where every lookup throws. -/
def failingEnv : Nat → StopEnv := fun _ => .errorThrown "network down"

/-- C8 witness: the unknown id "99" gets a 404 with the stated body, and
the known id "3" resolves to a snapshot with that id. -/
theorem getDelayByStop_lookup_witness :
    getDelayByStop true defaultDraw failingEnv 0 "99" =
      ⟨404, false, some "Stop not found", none⟩ ∧
    ∃ s, getDelayByStopId true defaultDraw failingEnv 0 "3" = some s ∧
      s.stopId = "3" ∧ s ∈ fetchRealDelayData true defaultDraw failingEnv 0 :=
  ⟨((getDelayByStop_lookup true defaultDraw failingEnv 0 "99").1 (by decide)).2,
   (getDelayByStop_lookup true defaultDraw failingEnv 0 "3").2 (by decide)⟩

theorem le_foldl_max_init (l : List Int) (a : Int) : a ≤ l.foldl max a := by
  induction l generalizing a with
  | nil => simp
  | cons b t ih => exact le_trans (le_max_left a b) (ih (max a b))

theorem mem_le_foldl_max (l : List Int) (a : Int) :
    ∀ x ∈ l, x ≤ l.foldl max a := by
  induction l generalizing a with
  | nil => simp
  | cons b t ih =>
      intro x hx
      rcases List.mem_cons.mp hx with rfl | hx'
      · exact le_trans (le_max_right a x) (le_foldl_max_init t (max a x))
      · exact ih (max a b) x hx'

theorem foldl_max_mem (l : List Int) (a : Int) : l.foldl max a ∈ a :: l := by
  induction l generalizing a with
  | nil => simp
  | cons b t ih =>
      have h := ih (max a b)
      rcases List.mem_cons.mp h with h1 | h1
      · rcases max_choice a b with hm | hm
        · rw [List.foldl_cons, h1, hm]
          exact List.mem_cons_self _ _
        · rw [List.foldl_cons, h1, hm]
          exact List.mem_cons_of_mem _ (List.mem_cons_self _ _)
      · rw [List.foldl_cons]
        exact List.mem_cons_of_mem _ (List.mem_cons_of_mem _ h1)

/-- A station whose departure board is consulted but empty. -/
def emptyStation : Station := ⟨"X1", "SomeStation", "stop", none⟩

/-- A per-stop environment where every station is found but has no
departures: the snapshots carry no error yet no scheduled departure. -/
def noDepartureEnv : Nat → StopEnv := fun _ => .stationFound emptyStation (some [])

/-- C4 counterexample: with every station found but without departures,
all 7 snapshots are error-free with `delayMinutes` 0, so the claim's
"statistics over exactly the error-free snapshots" predicts an on-time
count of 7 and an on-time percentage of 100, but the code also filters on
a present `scheduledDeparture` and reports 0 and 0. -/
theorem getRouteSummary_error_filter_cex :
    claimOnTimeCount (fetchRealDelayData true defaultDraw noDepartureEnv 0) = 7 ∧
    (getRouteSummary (fetchRealDelayData true defaultDraw noDepartureEnv 0)).stopsOnTime = 0 ∧
    (getRouteSummary (fetchRealDelayData true defaultDraw noDepartureEnv 0)).onTimePercentage = 0 := by
  decide

/-- C4 amended: the summary statistics are computed over exactly the
snapshots that have no error *and* a present `scheduledDeparture` (a
snapshot is excluded iff it carries an error or lacks a scheduled
departure); `cancelledServices` is counted over the full unfiltered list;
average delay and on-time percentage are rounded integers equal to 0 when
no valid snapshot exists, and the maximum is attained on a valid snapshot
and bounds them all. -/
theorem getRouteSummary_stats (delays : List Snapshot) :
    (∀ d : Snapshot, d ∈ validDelays delays ↔
      d ∈ delays ∧ strTruthy d.error = false ∧ d.scheduledDeparture.isSome = true) ∧
    (getRouteSummary delays).stopsOnTime =
      ((validDelays delays).filter fun d => d.delayMinutes == 0).length ∧
    (getRouteSummary delays).cancelledServices =
      (delays.filter fun d => d.cancelled).length ∧
    (validDelays delays = [] →
      (getRouteSummary delays).averageDelayMinutes = 0 ∧
      (getRouteSummary delays).onTimePercentage = 0 ∧
      (getRouteSummary delays).maxDelayMinutes = 0) ∧
    (validDelays delays ≠ [] →
      (getRouteSummary delays).averageDelayMinutes =
        jsRoundDiv ((validDelays delays).foldl (fun sum d => sum + d.delayMinutes) 0)
          ((validDelays delays).length : Int) ∧
      (getRouteSummary delays).onTimePercentage =
        jsRoundDiv
          ((((validDelays delays).filter fun d => d.delayMinutes == 0).length : Int) * 100)
          ((validDelays delays).length : Int) ∧
      (getRouteSummary delays).maxDelayMinutes ∈
        (validDelays delays).map (·.delayMinutes) ∧
      ∀ d ∈ validDelays delays,
        d.delayMinutes ≤ (getRouteSummary delays).maxDelayMinutes) := by
  refine ⟨?_, rfl, rfl, ?_, ?_⟩
  · intro d
    unfold validDelays
    rw [List.mem_filter]
    simp
  · intro hempty
    unfold getRouteSummary
    rw [hempty]
    simp
  · intro hne
    have hpos : 0 < (validDelays delays).length := List.length_pos.mpr hne
    refine ⟨?_, ?_, ?_, ?_⟩
    · unfold getRouteSummary
      simp only [if_pos hpos]
    · unfold getRouteSummary
      simp only [if_pos hpos]
    · unfold getRouteSummary
      simp only [if_pos hpos]
      rcases h : (validDelays delays).map (·.delayMinutes) with _ | ⟨x, xs⟩
      · exact absurd (List.map_eq_nil_iff.mp h) hne
      · rw [h]
        exact foldl_max_mem xs x
    · intro d hd
      unfold getRouteSummary
      simp only [if_pos hpos]
      rcases h : (validDelays delays).map (·.delayMinutes) with _ | ⟨x, xs⟩
      · exact absurd (List.map_eq_nil_iff.mp h) hne
      · rw [h]
        have : d.delayMinutes ∈ x :: xs := by
          rw [← h]
          exact List.mem_map_of_mem _ hd
        rcases List.mem_cons.mp this with h1 | h1
        · rw [h1]
          exact le_foldl_max_init xs x
        · exact mem_le_foldl_max xs x _ h1

/-- A cancelled upstream departure that still carries a 600-second delay. -/
def cancelledDeparture : Departure :=
  ⟨some 600, some 60000, some 60000, true, none, none, none, some "R7", none, none⟩

/-- A per-stop environment where stop 1 has the cancelled 10-minute-late
departure and every other stop errors out. -/
def cancelledEnv : Nat → StopEnv := fun n =>
  if n = 1 then .stationFound emptyStation (some [cancelledDeparture])
  else .errorThrown "boom"

/-- C5 counterexample: in real-data mode a cancelled departure's
`delayMinutes` is not forced to 0, so the only valid snapshot is cancelled
with 10 minutes, the cancelled snapshots contribute 10 (not 0) to the
delay sum, and the average is 10. -/
theorem cancelled_contribution_cex :
    ((validDelays (fetchRealDelayData true defaultDraw cancelledEnv 0)).filter
        fun d => d.cancelled).foldl (fun sum d => sum + d.delayMinutes) 0 = 10 ∧
    (getRouteSummary (fetchRealDelayData true defaultDraw cancelledEnv 0)).averageDelayMinutes = 10 ∧
    (getRouteSummary (fetchRealDelayData true defaultDraw cancelledEnv 0)).cancelledServices = 1 := by
  decide

theorem foldl_add_eq_init (l : List Snapshot)
    (h : ∀ d ∈ l, d.delayMinutes = 0) (a : Int) :
    l.foldl (fun sum d => sum + d.delayMinutes) a = a := by
  induction l generalizing a with
  | nil => rfl
  | cons b t ih =>
      rw [List.foldl_cons, h b (List.mem_cons_self _ _), add_zero]
      exact ih (fun d hd => h d (List.mem_cons_of_mem _ hd)) a

/-- C5 amended: in simulated mode a cancelled snapshot's `delayMinutes`
is forced to 0, so cancelled snapshots contribute 0 to the delay sum used
for the average, while `cancelledServices` counts every cancelled
snapshot of the unfiltered list in both modes; in real-data mode the
code does not force a cancelled departure's delay to 0 (see the
counterexample). -/
theorem cancelled_zero_in_simulated (draw : Nat → SimDraw) (now : Int)
    (delays : List Snapshot) :
    (∀ s ∈ generateSimulatedData draw now, s.cancelled = true → s.delayMinutes = 0) ∧
    ((validDelays (generateSimulatedData draw now)).filter
        fun d => d.cancelled).foldl (fun sum d => sum + d.delayMinutes) 0 = 0 ∧
    (getRouteSummary delays).cancelledServices =
      (delays.filter fun d => d.cancelled).length := by
  have hzero : ∀ s ∈ generateSimulatedData draw now,
      s.cancelled = true → s.delayMinutes = 0 := by
    intro s hs hc
    simp only [generateSimulatedData, List.mem_map] at hs
    obtain ⟨stop, hstop, rfl⟩ := hs
    simp_all
  refine ⟨hzero, ?_, rfl⟩
  apply foldl_add_eq_init
  intro d hd
  rw [List.mem_filter] at hd
  obtain ⟨hdv, hdc⟩ := hd
  unfold validDelays at hdv
  rw [List.mem_filter] at hdv
  exact hzero d hdv.1 hdc

/-- C6: every simulated snapshot realizes the stated draw model: the base
draw ranges over {0..15} and collapses to 0 below 5, so a non-cancelled
snapshot's `delayMinutes` is 0 or in {5..15} and its status is the
classification of its `delayMinutes`; a cancelled draw forces
`delayMinutes` to 0 with status "cancelled" regardless of the base draw. -/
theorem generateSimulatedData_draws (draw : Nat → SimDraw) (now : Int)
    (s : Snapshot) (hs : s ∈ generateSimulatedData draw now) :
    (s.cancelled = false →
      (s.delayMinutes = 0 ∨ (5 ≤ s.delayMinutes ∧ s.delayMinutes ≤ 15)) ∧
      s.status = getDelayStatus s.delayMinutes) ∧
    (s.cancelled = true → s.delayMinutes = 0 ∧ s.status = "cancelled") ∧
    (∃ stop, stop ∈ R7_STOPS ∧ s.stopOrder = stop.order ∧
      s.cancelled = (draw stop.order).cancelled ∧
      (s.cancelled = false → s.delayMinutes =
        if (((draw stop.order).baseDelay : Nat) : Int) < 5 then 0
        else (((draw stop.order).baseDelay : Nat) : Int))) := by
  simp only [generateSimulatedData, List.mem_map] at hs
  obtain ⟨stop, hstop, rfl⟩ := hs
  have hlt : ((draw stop.order).baseDelay : Nat) < 16 := (draw stop.order).baseDelay.isLt
  refine ⟨?_, ?_, stop, hstop, rfl, ?_, ?_⟩
  · intro hc
    simp only at hc
    constructor
    · simp only [hc, Bool.false_eq_true, if_false]
      split_ifs with h5
      · left; rfl
      · right
        constructor <;> omega
    · simp only [hc, Bool.false_eq_true, if_false]
  · intro hc
    simp only at hc
    simp [hc]
  · rfl
  · intro hc
    simp only at hc
    simp [hc]

/-- The draw used by the C6 witness: base delay 7, not cancelled. -/
def witnessDraw : Nat → SimDraw := fun _ => ⟨7, false, 0⟩

/-- C6 witness at the first simulated snapshot under `witnessDraw`. -/
theorem generateSimulatedData_draws_witness :
    ((generateSimulatedData witnessDraw 0).headI.delayMinutes = 0 ∨
      (5 ≤ (generateSimulatedData witnessDraw 0).headI.delayMinutes ∧
        (generateSimulatedData witnessDraw 0).headI.delayMinutes ≤ 15)) ∧
    (generateSimulatedData witnessDraw 0).headI.status =
      getDelayStatus (generateSimulatedData witnessDraw 0).headI.delayMinutes :=
  (generateSimulatedData_draws witnessDraw 0
    (generateSimulatedData witnessDraw 0).headI (by decide)).1 (by decide)

end R7
